import Mathlib

/-
  Verification development for the DICOMFetch repository.

  Shallow embedding of:
  - src/pydcm4che3.py : combo_cmd (query builder), finder (query runner),
    geter (fetch runner), _parse_cget_response and _parse_cstore_response
    (progress-line parsing);
  - src/queryinterface.py : Interface.fetch (dispatch and progress
    aggregation) and Interface.query (dispatch);
  - src/structures.py : the CGetResponse and CStoreResponse records and the
    QIError exception.

  Machine integers are embedded as Int (Python integers are unbounded),
  strings as Lean String over List Char, raised exceptions as explicit
  error values or trace items.
-/

namespace DcmFetch

set_option maxRecDepth 20000

/-- Hierarchy levels. The keys of level_map and level_required_keys_map in
combo_cmd (src/pydcm4che3.py lines 207-220); any other level raises KeyError
in the source, which no claim exercises, so levels are embedded as a closed
enumeration. -/
inductive Level where
  | patient
  | study
  | series
  | image
  deriving DecidableEq

/-- The flattened level_map entry for a level: combo_cmd appends the pair
lists one after the other (src/pydcm4che3.py lines 207-212 and 222-223). -/
def levelArgs : Level → List String
  | Level.patient => ["-M", "PatientRoot", "-L", "PATIENT"]
  | Level.study => ["-M", "StudyRoot", "-L", "STUDY"]
  | Level.series => ["-M", "PatientRoot", "-L", "SERIES"]
  | Level.image => ["-M", "PatientRoot", "-L", "IMAGE"]

/-- level_required_keys_map from combo_cmd (src/pydcm4che3.py lines 214-220). -/
def levelRequiredKeys : Level → List String
  | Level.patient => ["PatientName", "PatientID", "PatientBirthDate", "PatientSex"]
  | Level.study => ["PatientID", "StudyID", "StudyInstanceUID", "StudyDate", "StudyDescription"]
  | Level.series => ["PatientID", "StudyInstanceUID", "Modality", "SeriesNumber",
      "SeriesInstanceUID", "SeriesDescription", "BodyPartExamined"]
  | Level.image => ["PatientID", "StudyInstanceUID", "SeriesInstanceUID", "InstanceNumber",
      "SOPInstanceUID"]

/-- The caller-key loop of combo_cmd (src/pydcm4che3.py lines 226-234).
Iterates the query map in insertion order carrying the accumulated command
list and the remaining required keys. An empty value emits a return
directive and continues (without touching the required-key list); a
non-empty value emits a filter directive and removes the (possibly quoted)
key from the required keys, list.remove being a first-occurrence removal
that the source guards with a membership test. -/
def comboLoop (useQuotes : Bool) : List (String × String) → List String → List String →
    List String × List String
  | [], cmd, req => (cmd, req)
  | (k, v) :: rest, cmd, req =>
    if v = "" then
      comboLoop useQuotes rest (cmd ++ ["-r", k]) req
    else
      comboLoop useQuotes rest
        (cmd ++ ["-m", (if useQuotes then "\"" ++ k ++ "\"" else k) ++ "=" ++ v])
        (req.erase (if useQuotes then "\"" ++ k ++ "\"" else k))

/-- combo_cmd (src/pydcm4che3.py lines 206-238). In the source, level and
query_map are free variables supplied by the calling scope; here they are
explicit parameters, as is the module constant USEQUOTES (False on posix).
After the caller loop the surviving required keys are appended as return
directives in their canonical order. -/
def combo_cmd (useQuotes : Bool) (cmd : List String) (level : Level)
    (query_map : List (String × String)) : List String :=
  let p := comboLoop useQuotes query_map (cmd ++ levelArgs level) (levelRequiredKeys level)
  p.2.foldl (fun acc k => acc ++ ["-r", k]) p.1

/-- The CGetResponse and CStoreResponse records (src/structures.py lines
31-38), the two progress-event shapes produced by the line parsers. Field
order follows the namedtuple declarations. -/
inductive PEvent where
  | cget (pcid remaining completed failed warning status : Int)
  | cstore (pcid status : Int)
  deriving DecidableEq

/-- The status field shared by both response records, read by
Interface.fetch at src/queryinterface.py line 114. -/
def PEvent.status : PEvent → Int
  | PEvent.cget _ _ _ _ _ st => st
  | PEvent.cstore _ st => st

/-- The mutable (completed, remaining) pair of Interface.fetch
(src/queryinterface.py lines 82-83). -/
structure FetchState where
  completed : Int
  remaining : Int
  deriving DecidableEq

/-- One loop iteration of Interface.fetch (src/queryinterface.py lines
104-111): a CGetResponse overwrites both counters from the event, a
CStoreResponse increments completed and keeps remaining. The yielded
snapshot always equals the updated state. -/
def stepState (s : FetchState) : PEvent → FetchState
  | PEvent.cget _ rem comp _ _ _ => ⟨comp, rem⟩
  | PEvent.cstore _ _ => ⟨s.completed + 1, s.remaining⟩

/-- Items observable from a fetch generator, in order: yielded progress
snapshots, then at most one raised error. statusErr is the QIError of
src/queryinterface.py line 115 (non-zero final response status); procErr is
the QIError of src/pydcm4che3.py lines 298-300 (non-zero getscu exit code),
which propagates through the for loop of Interface.fetch. -/
inductive TraceItem where
  | snap (completed remaining : Int)
  | statusErr (status : Int)
  | procErr (rc : Int)
  deriving DecidableEq

/-- What happens when the event stream is exhausted: geter first waits for
the process and raises on a non-zero exit code (src/pydcm4che3.py lines
297-300), which aborts Interface.fetch before its own check; otherwise
Interface.fetch inspects the last observed response, doing nothing when none
was observed and raising when its status is non-zero
(src/queryinterface.py lines 112-115). -/
def endItems (rc : Int) (last : Option PEvent) : List TraceItem :=
  if rc ≠ 0 then [TraceItem.procErr rc]
  else
    match last with
    | none => []
    | some e => if PEvent.status e ≠ 0 then [TraceItem.statusErr (PEvent.status e)] else []

/-- The event loop of Interface.fetch (src/queryinterface.py lines 103-115)
fed by geter: s is the counter state, last the response variable tracking
the most recent event, rc the exit code the underlying getscu process will
report at stream end. -/
def runFetch (s : FetchState) (last : Option PEvent) (rc : Int) : List PEvent → List TraceItem
  | [] => endItems rc last
  | e :: es =>
    TraceItem.snap (stepState s e).completed (stepState s e).remaining ::
      runFetch (stepState s e) (some e) rc es

/-- Interface.fetch observed purely as an event aggregator (the underlying
process exits cleanly): completed starts at 0, remaining at -1
(src/queryinterface.py lines 82-83), no response observed yet. -/
def fetchTrace (events : List PEvent) : List TraceItem :=
  runFetch ⟨0, -1⟩ none 0 events

/-- The bare snapshot sequence produced by the loop of Interface.fetch,
without the terminal bookkeeping: one (completed, remaining) pair per
event. -/
def snapshots (s : FetchState) : List PEvent → List (Int × Int)
  | [] => []
  | e :: es => ((stepState s e).completed, (stepState s e).remaining) :: snapshots (stepState s e) es

/-- The response variable of Interface.fetch after consuming the stream:
initialised before the loop (src/queryinterface.py line 103) and rebound to
every event in turn. -/
def lastEv : List PEvent → Option PEvent → Option PEvent
  | [], last => last
  | e :: es, _ => lastEv es (some e)

/-- A fetch trace is a success when it consists of snapshots only, with no
raised error item. -/
def traceSuccess : List TraceItem → Bool
  | [] => true
  | TraceItem.snap _ _ :: t => traceSuccess t
  | _ :: _ => false

/-- The completed components of the yielded snapshots, in emission order. -/
def snapCompleteds : List TraceItem → List Int
  | [] => []
  | TraceItem.snap c _ :: t => c :: snapCompleteds t
  | _ :: t => snapCompleteds t

/-- The completed fields carried by the CGetResponse events of a stream, in
arrival order. -/
def retrieveCompleteds : List PEvent → List Int
  | [] => []
  | PEvent.cget _ _ comp _ _ _ :: es => comp :: retrieveCompleteds es
  | _ :: es => retrieveCompleteds es

/-- A list of integers is non-decreasing from left to right. -/
def nondecreasing : List Int → Bool
  | [] => true
  | [_] => true
  | a :: b :: t => decide (a ≤ b) && nondecreasing (b :: t)

/-- Compatibility condition between a stream and the aggregator counter: at
every CGetResponse event the carried completed count is at least the
aggregator counter reached just before the event (the counter starts at c,
gains one per CStoreResponse and is overwritten by each CGetResponse). -/
def retrOk : Int → List PEvent → Bool
  | _, [] => true
  | c, PEvent.cget _ _ comp _ _ _ :: es => decide (c ≤ comp) && retrOk comp es
  | c, PEvent.cstore _ _ :: es => retrOk (c + 1) es

/-- A server descriptor as consumed by Interface.fetch and Interface.query:
application entity title, host, port, auth token and the facility marker
letters (spec section 6: W=web, F=find-capable, G=get-capable). -/
structure Server where
  aet : String
  host : String
  port : Nat
  auth : String
  facilities : List Char
  deriving DecidableEq

/-- Modelled from the spec: the server directory (module aettable, which is
not under src/) maps a server name to its descriptor; membership mirrors
lookup success and indexing an absent name fails with the mapping key
error. -/
def lookupAet : List (String × Server) → String → Option Server
  | [], _ => none
  | (n, s) :: t, name => if n = name then some s else lookupAet t name

/-- Errors surfaced by the dispatch code paths: unknownServer is the QIError
raised at src/queryinterface.py line 80 with the message that the server is
not in the dicom node table; keyError stands for a Python KeyError raised
by a mapping lookup; nameError stands for the UnboundLocalError raised when
server_mark is read without having been assigned. -/
inductive QErr where
  | unknownServer
  | keyError
  | nameError
  deriving DecidableEq

/-- Modelled from the spec: the web backend functions live in module
dicomweb, which is not under src/, so a backend invocation is recorded
symbolically with exactly the arguments the call site passes. webGet is the
call rst_ser_level_get(endpoint, node, port, auth, query_map) at
src/queryinterface.py lines 91-94, and cliGet the call
getter(aet, node, port, laet, level, savedir, query_map) at lines 96-99. -/
inductive BackendCall where
  | webGet (endpoint host : String) (port : Nat) (auth : String)
      (qmap : List (String × String))
  | cliGet (aet host : String) (port : Nat) (laet : String) (level : Level)
      (savedir : String) (qmap : List (String × String))
  deriving DecidableEq

/-- Symbolic record of the backend invocation made by Interface.query:
webFind is the web-branch call at src/queryinterface.py lines 134-141 and
cliFind the find-tool branch at lines 143-151. -/
inductive QueryCall where
  | webFind (endpoint host : String) (port : Nat) (auth : String) (level : Level)
      (ordingKey : Option String) (qmap : List (String × String))
  | cliFind (aet host : String) (port : Nat) (laet : String) (level : Level)
      (ordingKey : Option String) (qmap : List (String × String))
  deriving DecidableEq

/-- The dispatch part of Interface.fetch (src/queryinterface.py lines
79-102): the membership test on the node table runs first and raises the
unknown-server QIError; then the facility marker is chosen, W before G.
With neither marker, line 89 indexes fetch_level_souported with None and
raises KeyError before the QIError of line 101 is reachable. For W, line 89
selects a per-level entry that the branch then ignores: line 91 always
calls rst_ser_level_get, without the save_dir argument. -/
def fetchDispatch (table : List (String × Server)) (name : String) (level : Level)
    (save_dir laet : String) (qmap : List (String × String)) : Except QErr BackendCall :=
  match lookupAet table name with
  | none => Except.error QErr.unknownServer
  | some server =>
    if 'W' ∈ server.facilities then
      Except.ok (BackendCall.webGet server.aet server.host server.port server.auth qmap)
    else if 'G' ∈ server.facilities then
      Except.ok (BackendCall.cliGet server.aet server.host server.port laet level save_dir qmap)
    else
      Except.error QErr.keyError

/-- The dispatch part of Interface.query (src/queryinterface.py lines
117-154): line 121 indexes the node table before the membership check of
line 127, so an absent name raises the table key error and the
unknown-server branch at line 128 is dead code. With neither W nor F
facility, server_mark is never assigned and line 129 raises
UnboundLocalError. The level-support test of lines 129-131 always passes
because both facility tables list all four levels. -/
def queryDispatch (table : List (String × Server)) (name : String) (level : Level)
    (laet : String) (ordingKey : Option String) (qmap : List (String × String)) :
    Except QErr QueryCall :=
  match lookupAet table name with
  | none => Except.error QErr.keyError
  | some server =>
    if 'W' ∈ server.facilities then
      Except.ok (QueryCall.webFind server.aet server.host server.port server.auth level
        ordingKey qmap)
    else if 'F' ∈ server.facilities then
      Except.ok (QueryCall.cliFind server.aet server.host server.port laet level
        ordingKey qmap)
    else
      Except.error QErr.nameError

/-- The externally visible actions of finder (src/pydcm4che3.py lines
241-267) in program order. -/
inductive FAction where
  | mkdtemp
  | runFindscu
  | raiseQIError
  | parseFiles
  | rmtree
  | returnResponses
  deriving DecidableEq

/-- The action sequence of one finder call as a function of the findscu
exit code (src/pydcm4che3.py lines 241-267): mkdtemp at line 245, the
subprocess at lines 254-255, then either the QIError raise of lines 256-258
or the parse of lines 260-262 followed by shutil.rmtree at line 263 and the
return at lines 264-267. -/
def finderRun (rc : Int) : List FAction :=
  [FAction.mkdtemp, FAction.runFindscu] ++
    (if rc ≠ 0 then [FAction.raiseQIError]
     else [FAction.parseFiles, FAction.rmtree, FAction.returnResponses])

/-- The regex class backslash-d restricted to the ascii input the log lines
carry. -/
def pyDigit (c : Char) : Bool := c.isDigit

/-- The regex class of the status token: decimal digits and the hex letters
of both cases, per the character class in the patterns at
src/pydcm4che3.py lines 310 and 330. -/
def pyHex (c : Char) : Bool :=
  c.isDigit || ('A' ≤ c && c ≤ 'F') || ('a' ≤ c && c ≤ 'f')

/-- The regex class backslash-s over ascii: space, tab, newline, carriage
return, vertical tab, form feed. -/
def pySpace (c : Char) : Bool :=
  c = ' ' || c = '\t' || c = '\n' || c = '\r' || c = '\x0b' || c = '\x0c'

/-- Consume one literal character. -/
def matchChar (c : Char) : List Char → Option (List Char)
  | [] => none
  | x :: xs => if x = c then some xs else none

/-- Consume a literal character sequence. -/
def matchLit : List Char → List Char → Option (List Char)
  | [], cs => some cs
  | _ :: _, [] => none
  | l :: ls, x :: xs => if x = l then matchLit ls xs else none

/-- Consume exactly n characters of a class. -/
def matchN (p : Char → Bool) : Nat → List Char → Option (List Char)
  | 0, cs => some cs
  | _ + 1, [] => none
  | n + 1, x :: xs => if p x then matchN p n xs else none

/-- One or more whitespace characters, maximal. Equivalent to the greedy
backslash-s plus of the patterns because every follower in them starts with
a non-space character, so no shorter run can extend to a match. -/
def spaces1 (cs : List Char) : Option (List Char) :=
  if (cs.span pySpace).1 = [] then none else some (cs.span pySpace).2

/-- A non-empty maximal digit run together with the rest. Equivalent to the
greedy captures of form digits-plus in the patterns because each is
followed by a non-digit literal, so only the maximal run can succeed. -/
def digitsRun (cs : List Char) : Option (List Char × List Char) :=
  if (cs.span pyDigit).1 = [] then none else some (cs.span pyDigit)

/-- The counted digit group of the timestamp millis, one to three digits
followed by whitespace: because digits and whitespace are disjoint, the
greedy counted repetition matches exactly when the maximal digit run has
length one to three. -/
def millis3 (cs : List Char) : Option (List Char) :=
  if (cs.span pyDigit).1.length = 0 || 3 < (cs.span pyDigit).1.length then none
  else some (cs.span pyDigit).2

/-- The status capture: one to four hex characters followed by the literal
H. The letter H is outside the hex class, so under greedy backtracking only
the full maximal run can be followed by H; hence the counted repetition
matches exactly when the maximal hex run has length one to four and H
follows. -/
def hexRunCap (cs : List Char) : Option (List Char × List Char) :=
  if (cs.span pyHex).1.length = 0 || 4 < (cs.span pyHex).1.length then none
  else (matchChar 'H' (cs.span pyHex).2).map fun rest => ((cs.span pyHex).1, rest)

/-- The greedy dot-star of the patterns: try the tail pattern at every
position reachable without consuming a newline, preferring the latest
position, as backtracking from the longest dot-star match does. -/
def searchTail {α : Type} (f : List Char → Option α) : List Char → Option α
  | [] => f []
  | c :: cs =>
    if c = '\n' then f (c :: cs)
    else (searchTail f cs).orElse fun _ => f (c :: cs)

/-- The anchored timestamp of both patterns: two digits, colon, two digits,
colon, two digits, comma, then the one-to-three digit millis
(src/pydcm4che3.py lines 310 and 330). -/
def matchTimestamp (cs : List Char) : Option (List Char) := do
  let cs ← matchN pyDigit 2 cs
  let cs ← matchChar ':' cs
  let cs ← matchN pyDigit 2 cs
  let cs ← matchChar ':' cs
  let cs ← matchN pyDigit 2 cs
  let cs ← matchChar ',' cs
  millis3 cs

/-- A literal key immediately followed by a captured digit run. -/
def capGroup (key : List Char) (cs : List Char) : Option (List Char × List Char) :=
  (matchLit key cs).bind digitsRun

/-- The separator between captured fields: a comma then whitespace. -/
def sepComma (cs : List Char) : Option (List Char) :=
  (matchChar ',' cs).bind spaces1

/-- The suffix of the c-get pattern after the dot-star: digits, colon, the
C-GET-RSP literal, then the five capture groups (pcid, completed, failed,
warning, status). The trailing dot-star of the pattern constrains
nothing. -/
def cgetTail (cs : List Char) :
    Option (List Char × List Char × List Char × List Char × List Char) :=
  (digitsRun cs).bind fun d0 =>
  (matchChar ':' d0.2).bind fun cs1 =>
  (capGroup "C-GET-RSP[pcid=".toList cs1).bind fun p1 =>
  (sepComma p1.2).bind fun cs2 =>
  (capGroup "completed=".toList cs2).bind fun p2 =>
  (sepComma p2.2).bind fun cs3 =>
  (capGroup "failed=".toList cs3).bind fun p3 =>
  (sepComma p3.2).bind fun cs4 =>
  (capGroup "warning=".toList cs4).bind fun p4 =>
  (sepComma p4.2).bind fun cs5 =>
  (matchLit "status=".toList cs5).bind fun cs6 =>
  (hexRunCap cs6).map fun p5 => (p1.1, p2.1, p3.1, p4.1, p5.1)

/-- The full c-get pattern of src/pydcm4che3.py line 310, matched from the
start of the line as re.match does: timestamp, whitespace, INFO,
whitespace, then the greedy dot-star and the tail. Returns the five capture
group token strings. -/
def cgetCaptures (cs : List Char) :
    Option (List Char × List Char × List Char × List Char × List Char) :=
  (matchTimestamp cs).bind fun cs1 =>
  (spaces1 cs1).bind fun cs2 =>
  (matchLit "INFO".toList cs2).bind fun cs3 =>
  (spaces1 cs3).bind fun cs4 =>
  searchTail cgetTail cs4

/-- The suffix of the c-store pattern after the dot-star: digits, colon,
the C-STORE-RSP literal, then the two capture groups (pcid, status). -/
def cstoreTail (cs : List Char) : Option (List Char × List Char) :=
  (digitsRun cs).bind fun d0 =>
  (matchChar ':' d0.2).bind fun cs1 =>
  (capGroup "C-STORE-RSP[pcid=".toList cs1).bind fun p1 =>
  (sepComma p1.2).bind fun cs2 =>
  (matchLit "status=".toList cs2).bind fun cs3 =>
  (hexRunCap cs3).map fun p2 => (p1.1, p2.1)

/-- The full c-store pattern of src/pydcm4che3.py line 330: timestamp,
whitespace, INFO, whitespace, a hyphen, whitespace, then the greedy
dot-star and the tail. -/
def cstoreCaptures (cs : List Char) : Option (List Char × List Char) :=
  (matchTimestamp cs).bind fun cs1 =>
  (spaces1 cs1).bind fun cs2 =>
  (matchLit "INFO".toList cs2).bind fun cs3 =>
  (spaces1 cs3).bind fun cs4 =>
  (matchChar '-' cs4).bind fun cs5 =>
  (spaces1 cs5).bind fun cs6 =>
  searchTail cstoreTail cs6

/-- Python int() on a captured decimal digit string. -/
def decVal (ds : List Char) : Nat :=
  ds.foldl (fun a c => 10 * a + (c.toNat - 48)) 0

/-- The value of one hex digit of either case. -/
def hexDigitVal (c : Char) : Nat :=
  if c.isDigit then c.toNat - 48
  else if 'A' ≤ c && c ≤ 'F' then c.toNat - 55
  else c.toNat - 87

/-- Python int(s, 16) on a captured hex token. -/
def hexVal (ds : List Char) : Nat :=
  ds.foldl (fun a c => 16 * a + hexDigitVal c) 0

/-- _parse_cget_response (src/pydcm4che3.py lines 306-321). On a match the
source builds CGetResponse(pcid, remaining, completed, failed, warning,
status) with remaining set to the literal 0 (line 318), warning =
int(m.group(4)) and status = int(m.group(4), 16): the status value is
computed from capture group 4, the warning token, and capture group 5, the
status token, is never read. -/
def _parse_cget_response (line : String) : Option PEvent :=
  match cgetCaptures line.toList with
  | none => none
  | some (g1, g2, g3, g4, _) =>
    some (PEvent.cget (decVal g1) 0 (decVal g2) (decVal g3) (decVal g4) (hexVal g4))

/-- _parse_cstore_response (src/pydcm4che3.py lines 326-337):
CStoreResponse(pcid, status) with status = int(m.group(2), 16). -/
def _parse_cstore_response (line : String) : Option PEvent :=
  match cstoreCaptures line.toList with
  | none => none
  | some (g1, g2) => some (PEvent.cstore (decVal g1) (hexVal g2))

/-- The per-line classification inside the loop of geter
(src/pydcm4che3.py lines 284-294): try the c-get pattern first, then the
c-store pattern, yield nothing when neither matches. -/
def parseResponse (line : String) : Option PEvent :=
  match _parse_cget_response line with
  | some r => some r
  | none => _parse_cstore_response line

/-- Interface.fetch composed with geter over the raw line stream of the
getscu process (src/pydcm4che3.py lines 279-300 feeding
src/queryinterface.py lines 103-115): the parsed events drive the
aggregator and the process exit code decides whether geter raises at
stream end, which aborts the terminal status check of Interface.fetch. -/
def geterFetch (lines : List String) (rc : Int) : List TraceItem :=
  runFetch ⟨0, -1⟩ none rc (lines.filterMap parseResponse)

/-- The doc-comment example line of src/pydcm4che3.py lines 303-305 with
the status token set to 1A, so that the warning token (0) and the status
token (1A) have different values. -/
def exLineC1 : String :=
  "23:00:36,960 INFO  - FINDSCU->CRICStore(1) >> 1:C-GET-RSP[pcid=1, completed=3, failed=0, warning=0, status=1AH"

/-- A retrieve-progress line with distinct values in every field: pcid 7,
completed 4, failed 1, warning 2, status token 0. -/
def exLineC8 : String :=
  "23:00:36,960 INFO  - FINDSCU->CRICStore(1) >> 2:C-GET-RSP[pcid=7, completed=4, failed=1, warning=2, status=0H"

/-- A retrieve-progress line whose status token is 0, used as the terminal
event of a fetch whose process then exits non-zero. -/
def exLineC7 : String :=
  "10:11:12,5 INFO x 1:C-GET-RSP[pcid=1, completed=3, failed=0, warning=0, status=0H"

/-- The caller map of end-to-end scenario 1: a PatientID filter and a
Modality return directive, in that insertion order. -/
def c2QueryMap : List (String × String) := [("PatientID", "123"), ("Modality", "")]

/-- The builder output that claim C2 asserts for scenario 1: the Modality
return directive appears once and the auto-added block skips it. -/
def c2ClaimedOutput : List String :=
  ["-M", "PatientRoot", "-L", "SERIES", "-m", "PatientID=123", "-r", "Modality",
   "-r", "StudyInstanceUID", "-r", "SeriesNumber", "-r", "SeriesInstanceUID",
   "-r", "SeriesDescription", "-r", "BodyPartExamined"]

/-- A server advertising the web and get facilities, for witnesses. -/
def demoServer : Server := ⟨"AET1", "host1", 104, "tok", ['W', 'G']⟩

end DcmFetch

namespace DcmFetch

set_option maxRecDepth 20000

/-- Helper: the terminal bookkeeping of a fetch emits no snapshot, whatever
the exit code and last response are. -/
theorem snapCompleteds_endItems (rc : Int) (last : Option PEvent) :
    snapCompleteds (endItems rc last) = [] := by
  unfold endItems
  split
  · rfl
  · cases last with
    | none => rfl
    | some e =>
      simp only []
      split <;> rfl

/-- Helper: the trace of a fetch run is the snapshot sequence followed by
the terminal bookkeeping of the exit code and the last observed response. -/
theorem runFetch_eq (es : List PEvent) :
    ∀ (s : FetchState) (last : Option PEvent) (rc : Int),
      runFetch s last rc es =
        (snapshots s es).map (fun p => TraceItem.snap p.1 p.2) ++
          endItems rc (lastEv es last) := by
  induction es with
  | nil => intro s last rc; simp [runFetch, snapshots, lastEv]
  | cons e es ih => intro s last rc; simp [runFetch, snapshots, lastEv, ih]

/-- Helper: dropping the head of a non-decreasing list keeps it
non-decreasing. -/
theorem nondecreasing_tail (a : Int) (l : List Int)
    (h : nondecreasing (a :: l) = true) : nondecreasing l = true := by
  cases l with
  | nil => rfl
  | cons b t =>
    rw [nondecreasing, Bool.and_eq_true] at h
    exact h.2

/-- Helper: when every retrieve event carries a completed count at least
the aggregator counter reached before it, the counter sequence seeded with
the current counter is non-decreasing. -/
theorem retrOk_mono (es : List PEvent) :
    ∀ (s : FetchState) (last : Option PEvent) (rc : Int),
      retrOk s.completed es = true →
      nondecreasing (s.completed :: snapCompleteds (runFetch s last rc es)) = true := by
  induction es with
  | nil =>
    intro s last rc _
    rw [runFetch, snapCompleteds_endItems]
    rfl
  | cons e es ih =>
    intro s last rc h
    cases e with
    | cget p rem comp f w st =>
      rw [retrOk, Bool.and_eq_true, decide_eq_true_eq] at h
      rw [runFetch]
      simp only [stepState, snapCompleteds]
      rw [nondecreasing, Bool.and_eq_true]
      exact ⟨decide_eq_true h.1, ih ⟨comp, rem⟩ (some (PEvent.cget p rem comp f w st)) rc h.2⟩
    | cstore p st =>
      rw [retrOk] at h
      rw [runFetch]
      simp only [stepState, snapCompleteds]
      rw [nondecreasing, Bool.and_eq_true]
      refine ⟨decide_eq_true (by omega), ?_⟩
      exact ih ⟨s.completed + 1, s.remaining⟩ (some (PEvent.cstore p st)) rc h

/-- Helper: a block of snapshot items in front of a trace does not affect
whether the trace is a success. -/
theorem traceSuccess_snaps (l : List (Int × Int)) (t : List TraceItem) :
    traceSuccess (l.map (fun p => TraceItem.snap p.1 p.2) ++ t) = traceSuccess t := by
  induction l with
  | nil => rfl
  | cons a l ih => simpa [traceSuccess] using ih

/-- Claim C1, code evaluation at the failing input: on a line whose warning
token is 0 and whose status token is 1A, _parse_cget_response returns
status 0 (the base-16 value of the warning capture group), although the
base-16 value of the status token is 26, which is what the claimed grammar
with independent capture groups would produce. -/
theorem c1_status_group_eval :
    _parse_cget_response exLineC1 = some (PEvent.cget 1 0 3 0 0 0) ∧
      hexVal "1A".toList = 26 :=
  ⟨rfl, rfl⟩

/-- Claim C2, counterexample: for the series-level build with caller map
PatientID=123, Modality empty, combo_cmd does not produce the claimed
output in which Modality appears as a return directive only once. -/
theorem c2_counterexample :
    combo_cmd false [] Level.series c2QueryMap ≠ c2ClaimedOutput := by
  decide

/-- Claim C2 as amended: the builder emits the PatientID filter and the
caller Modality return directive, but a caller key with an empty value is
not recorded as satisfied, so the auto-added block still contains Modality:
it is StudyInstanceUID, Modality, SeriesNumber, SeriesInstanceUID,
SeriesDescription, BodyPartExamined, in canonical order. -/
theorem c2_amended :
    combo_cmd false [] Level.series c2QueryMap =
      ["-M", "PatientRoot", "-L", "SERIES", "-m", "PatientID=123", "-r", "Modality",
       "-r", "StudyInstanceUID", "-r", "Modality", "-r", "SeriesNumber",
       "-r", "SeriesInstanceUID", "-r", "SeriesDescription", "-r", "BodyPartExamined"] := by
  rfl

/-- Claim C3: on the stream store, store, retrieve(completed 2, status 0)
the aggregator emits exactly the snapshots (1,-1), (2,-1), (2,0) and
terminates with no error; moreover every store event increments completed
by one keeping remaining, and every retrieve event overwrites completed and
remaining with the event fields. -/
theorem c3_scenario :
    (fetchTrace [PEvent.cstore 1 0, PEvent.cstore 1 0, PEvent.cget 1 0 2 0 0 0] =
        [TraceItem.snap 1 (-1), TraceItem.snap 2 (-1), TraceItem.snap 2 0] ∧
      traceSuccess
        (fetchTrace [PEvent.cstore 1 0, PEvent.cstore 1 0, PEvent.cget 1 0 2 0 0 0]) = true) ∧
    (∀ (s : FetchState) (last : Option PEvent) (rc p st : Int) (es : List PEvent),
      runFetch s last rc (PEvent.cstore p st :: es) =
        TraceItem.snap (s.completed + 1) s.remaining ::
          runFetch ⟨s.completed + 1, s.remaining⟩ (some (PEvent.cstore p st)) rc es) ∧
    (∀ (s : FetchState) (last : Option PEvent) (rc p rem comp f w st : Int)
        (es : List PEvent),
      runFetch s last rc (PEvent.cget p rem comp f w st :: es) =
        TraceItem.snap comp rem ::
          runFetch ⟨comp, rem⟩ (some (PEvent.cget p rem comp f w st)) rc es) :=
  ⟨⟨rfl, rfl⟩, fun _ _ _ _ _ _ => rfl, fun _ _ _ _ _ _ _ _ _ _ => rfl⟩

/-- Claim C4, counterexample: on the stream store, retrieve(completed 0)
the retrieve events carry non-decreasing completed fields, yet the emitted
completed sequence is 1 then 0, which is decreasing. -/
theorem c4_counterexample :
    nondecreasing (retrieveCompleteds [PEvent.cstore 1 0, PEvent.cget 1 0 0 0 0 0]) = true ∧
      nondecreasing
        (snapCompleteds (fetchTrace [PEvent.cstore 1 0, PEvent.cget 1 0 0 0 0 0])) = false :=
  ⟨rfl, rfl⟩

/-- Claim C4 as amended: the emitted completed sequence is non-decreasing
for every interleaving in which each retrieve event carries a completed
count at least the aggregator counter reached just before it, that is, at
least the completed count of the previous retrieve event plus the number of
store events since (counting from zero at the start of the stream). -/
theorem c4_amended (evs : List PEvent) (h : retrOk 0 evs = true) :
    nondecreasing (snapCompleteds (fetchTrace evs)) = true :=
  nondecreasing_tail 0 _ (retrOk_mono evs ⟨0, -1⟩ none 0 h)

/-- Claim C4 witness: a concrete interleaving satisfying the amended
hypothesis, on which the amended theorem yields monotonicity. -/
theorem c4_amended_witness :
    retrOk 0 [PEvent.cstore 1 0, PEvent.cget 1 0 2 0 0 0] = true ∧
      nondecreasing
        (snapCompleteds (fetchTrace [PEvent.cstore 1 0, PEvent.cget 1 0 2 0 0 0])) = true :=
  ⟨rfl, c4_amended [PEvent.cstore 1 0, PEvent.cget 1 0 2 0 0 0] rfl⟩

/-- Claim C5: with a clean process exit, an empty event stream makes the
fetch emit nothing and raise nothing, and a non-empty stream makes it emit
every snapshot first and then raise the status error exactly when the last
observed event has non-zero status. -/
theorem c5_termination (evs : List PEvent) :
    (evs = [] → fetchTrace evs = []) ∧
    ∀ e, lastEv evs none = some e →
      fetchTrace evs =
        (snapshots ⟨0, -1⟩ evs).map (fun p => TraceItem.snap p.1 p.2) ++
          (if PEvent.status e ≠ 0 then [TraceItem.statusErr (PEvent.status e)] else []) := by
  constructor
  · intro h; subst h; rfl
  · intro e he
    rw [fetchTrace, runFetch_eq, he]
    simp [endItems]

/-- Claim C5 witness: the theorem applied to a one-event stream whose
status is non-zero. -/
theorem c5_termination_witness :
    fetchTrace [PEvent.cstore 1 5] =
      (snapshots ⟨0, -1⟩ [PEvent.cstore 1 5]).map (fun p => TraceItem.snap p.1 p.2) ++
        (if PEvent.status (PEvent.cstore 1 5) ≠ 0 then
          [TraceItem.statusErr (PEvent.status (PEvent.cstore 1 5))] else []) :=
  (c5_termination [PEvent.cstore 1 5]).2 (PEvent.cstore 1 5) rfl

/-- Claim C6, code evaluation at the failing input: for a server name
absent from the node table, Interface.fetch raises the unknown-server
QIError before any backend call, but Interface.query indexes the table
before its membership check and raises the table key error instead of the
unknown-server error; no backend call is produced on either path. -/
theorem c6_unknown_server_eval :
    queryDispatch [] "UnknownPACS" Level.series "CALLER" none [] =
        Except.error QErr.keyError ∧
      fetchDispatch [] "UnknownPACS" Level.series "save" "CALLER" [] =
        Except.error QErr.unknownServer ∧
      QErr.keyError ≠ QErr.unknownServer :=
  ⟨rfl, rfl, by decide⟩

/-- Claim C7, counterexample: a fetch whose only observed event is a
retrieve line with status token 0 still fails when the process exit code is
1: after the snapshot the process-exit QIError of geter is raised, so a
zero terminal status does not make the fetch succeed regardless of the exit
code. -/
theorem c7_counterexample :
    [exLineC7].filterMap parseResponse = [PEvent.cget 1 0 3 0 0 0] ∧
      PEvent.status (PEvent.cget 1 0 3 0 0 0) = 0 ∧
      geterFetch [exLineC7] 1 = [TraceItem.snap 3 0, TraceItem.procErr 1] ∧
      traceSuccess (geterFetch [exLineC7] 1) = false :=
  ⟨rfl, rfl, rfl, rfl⟩

/-- Claim C7 as amended: a fetch succeeds exactly when the process exit
code is zero and the last observed event, when one exists, has status zero;
a non-zero exit code is a failure even when a terminal status-zero event
was observed. -/
theorem c7_amended (evs : List PEvent) (rc : Int) :
    traceSuccess (runFetch ⟨0, -1⟩ none rc evs) = true ↔
      (rc = 0 ∧ ∀ e, lastEv evs none = some e → PEvent.status e = 0) := by
  rw [runFetch_eq, traceSuccess_snaps]
  by_cases hrc : rc = 0
  · cases h : lastEv evs none with
    | none => simp [endItems, hrc, h, traceSuccess]
    | some e =>
      by_cases hs : PEvent.status e = 0
      · simp [endItems, hrc, h, hs, traceSuccess]
      · simp [endItems, hrc, h, hs, traceSuccess]
  · simp [endItems, hrc, traceSuccess]

/-- Claim C7 witness: the amended theorem applied to a one-event stream
with a status-zero terminal event and a clean exit. -/
theorem c7_amended_witness :
    traceSuccess (runFetch ⟨0, -1⟩ none 0 [PEvent.cget 2 0 5 0 0 0]) = true :=
  (c7_amended [PEvent.cget 2 0 5 0 0 0] 0).mpr
    ⟨rfl, by
      intro e he
      simp only [lastEv] at he
      cases he
      rfl⟩

/-- Claim C8, counterexample: the parser maps a retrieve-progress line to
an event whose remaining field is 0, not the claimed unknown value -1. -/
theorem c8_counterexample :
    _parse_cget_response exLineC8 = some (PEvent.cget 7 0 4 1 2 2) ∧ (0 : Int) ≠ -1 :=
  ⟨rfl, by decide⟩

/-- Claim C8 as amended: every RetrieveProgress event produced by
_parse_cget_response carries a remaining count of 0; the unknown value -1
appears only as the initial remaining of the aggregator, before any
retrieve event arrives. -/
theorem c8_amended (line : String) (p r c f w s : Int)
    (h : _parse_cget_response line = some (PEvent.cget p r c f w s)) : r = 0 := by
  unfold _parse_cget_response at h
  split at h
  · exact absurd h (by simp)
  · injection h with h1
    injection h1 with e1 e2 e3 e4 e5 e6
    exact e2.symm

/-- Claim C8 witness: the amended theorem applied to a concrete
retrieve-progress line. -/
theorem c8_amended_witness :
    _parse_cget_response exLineC8 = some (PEvent.cget 7 0 4 1 2 2) ∧ (0 : Int) = 0 :=
  ⟨rfl, c8_amended exLineC8 7 0 4 1 2 2 rfl⟩

/-- Claim C9, counterexample: when the findscu process exits non-zero,
finder raises the query error without removing the temporary directory it
created. -/
theorem c9_counterexample :
    FAction.rmtree ∉ finderRun 1 ∧ FAction.raiseQIError ∈ finderRun 1 := by
  decide

/-- Claim C9 as amended: finder removes the temporary directory exactly on
the successful path; on the non-zero exit path the failure is raised with
the directory left in place. -/
theorem c9_amended (rc : Int) : FAction.rmtree ∈ finderRun rc ↔ rc = 0 := by
  by_cases h : rc = 0 <;> simp [finderRun, h]

/-- Claim C9 witness: the amended theorem applied at exit code zero. -/
theorem c9_amended_witness : FAction.rmtree ∈ finderRun 0 :=
  (c9_amended 0).mpr rfl

/-- Claim C10: for every server whose facilities contain W, the fetch
dispatch invokes the series-level web retrieval call with the server
connection data and the query map, for every requested level, and the
save_dir argument does not occur in the call. -/
theorem c10_web_fetch (table : List (String × Server)) (name : String) (server : Server)
    (level : Level) (save_dir laet : String) (qmap : List (String × String))
    (h1 : lookupAet table name = some server) (h2 : 'W' ∈ server.facilities) :
    fetchDispatch table name level save_dir laet qmap =
      Except.ok (BackendCall.webGet server.aet server.host server.port server.auth qmap) := by
  unfold fetchDispatch
  rw [h1]
  simp [h2]

/-- Claim C10 witness: the theorem applied to a concrete table and a
concrete web-capable server at image level. -/
theorem c10_web_fetch_witness :
    fetchDispatch [("srv", demoServer)] "srv" Level.image "dir" "LAET" [] =
      Except.ok (BackendCall.webGet "AET1" "host1" 104 "tok" []) :=
  c10_web_fetch [("srv", demoServer)] "srv" demoServer Level.image "dir" "LAET" []
    rfl (by decide)

end DcmFetch
